import Mathlib

/-!
Verification development for the Rimon ROI/savings dashboard (`src/main.py`).

The embedding models the keyword-scoring classifiers, the flat-fee and
hours-loading preprocessing, the groupby aggregation, the division-guarded
rate computations, and the full-year projection of the source.  Python
strings are modelled as `List Char`, numeric (float) quantities as `ℚ`,
nullable values (`NaN`/missing) as `Option`.
-/

namespace Rimon

/-- ASCII-faithful model of Python `str.lower`, character by character. -/
def lowerStr (s : List Char) : List Char := s.map Char.toLower

/-- `beginsWith n h` holds when `n` is an initial segment of `h`. -/
def beginsWith : List Char → List Char → Bool
  | [], _ => true
  | _ :: _, [] => false
  | a :: as, b :: bs => a == b && beginsWith as bs

/-- Model of Python substring membership `n in h` for strings. -/
def containsSub (n : List Char) : List Char → Bool
  | [] => n.isEmpty
  | c :: rest => beginsWith n (c :: rest) || containsSub n rest

/-- One category of a taxonomy: its dict key (`name`), its
`automation_potential`, and its `keywords` list, transcribed from the
taxonomy tables of `src/main.py`.  The presentational `description` and
`examples` fields are never read by a classification function and are
omitted from the embedding. -/
structure Category where
  name : String
  automation_potential : ℚ
  keywords : List String

/-- `sum(1 for keyword in info['keywords'] if keyword in matter_lower)`:
each keyword contributes at most 1, regardless of repeats. -/
def keywordScore (text : List Char) (c : Category) : Nat :=
  (c.keywords.filter (fun k => containsSub k.data text)).length

/-- `max(scores, key=scores.get)` over a dict built in declaration order:
Python's `max` returns the first key attaining the maximal value, i.e. the
earliest-scanned maximum.  The recursion below keeps the head unless a
strictly larger score appears later, which computes exactly that element. -/
def pickBest : List (Category × Nat) → Option (Category × Nat)
  | [] => none
  | x :: rest =>
      some ((pickBest rest).elim x (fun y => if x.2 < y.2 then y else x))

/-- Common body of the three classifiers in `src/main.py`: score every
category, keep only positive scores (`if score > 0: scores[category] = score`),
take the first maximal one, and fall back to the taxonomy default when no
keyword matched. -/
def classify_core (tax : List Category) (dflt : String × ℚ) (text : List Char) :
    String × ℚ :=
  match pickBest ((tax.map (fun c => (c, keywordScore text c))).filter
      (fun p => decide (0 < p.2))) with
  | some p => (p.1.name, p.1.automation_potential)
  | none => dflt

/-- `LEGALBENCH_TASKS` (src/main.py lines 46-219), in declaration order. -/
def LEGALBENCH_TASKS : List Category := [
  ⟨"Contract-Clause-Identification", 0.92,
    ["contract", "agreement", "lease", "license", "licensing", "amendment",
     "addendum", "nda", "msa", "sla", "consulting agreement", "service agreement",
     "vendor", "supplier", "procurement", "terms", "clause review"]⟩,
  ⟨"MA-Deal-Terms", 0.82,
    ["acquisition", "merger", "buyout", "purchase", "sale", "transaction",
     "m&a", "due diligence", "closing", "earnout", "escrow", "indemnit",
     "representation and warrant", "definitive agreement"]⟩,
  ⟨"Corporate-Governance", 0.80,
    ["general corporate", "corporate matters", "corporate governance",
     "formation", "incorporation", "llc", "corporation", "bylaws",
     "operating agreement", "shareholder", "board", "director", "officer",
     "corporate advice", "general representation", "retainer",
     "corporate counsel", "spv", "entity"]⟩,
  ⟨"Securities-Compliance", 0.78,
    ["securities", "sec", "offering", "private placement", "regulation d",
     "stock", "equity", "financing", "investment", "fund", "investor"]⟩,
  ⟨"Litigation-Matters", 0.75,
    [" v ", " v. ", " vs ", " vs. ", " versus ", "litigation", "lawsuit",
     "complaint", "dispute", "arbitration", "mediation", "trial", "hearing",
     "motion", "discovery", "deposition", "settlement", "judgment",
     "appeal", "court", "plaintiff", "defendant"]⟩,
  ⟨"Bankruptcy-Receivership", 0.73,
    ["bankruptcy", "chapter 11", "chapter 7", "receiver", "receivership",
     "creditor", "debtor", "insolvency", "reorganization", "liquidation"]⟩,
  ⟨"Employment-Law", 0.80,
    ["employment", "employee", "hr ", "human resources", "labor",
     "termination", "severance", "discrimination", "harassment",
     "wage", "compensation", "benefits", "non-compete", "restrictive covenant",
     "wrongful termination", "employment agreement"]⟩,
  ⟨"Real-Estate", 0.75,
    ["real estate", "property", "lease", "landlord", "tenant", "rental",
     "commercial lease", "retail lease", "office lease", "title",
     "escrow", "deed", "mortgage", "foreclosure", "easement", "zoning"]⟩,
  ⟨"Intellectual-Property", 0.85,
    ["patent", "trademark", "copyright", "intellectual property", " ip ",
     "infringement", "licensing", "royalty", "trade secret", "confidential",
     "epo", "uspto", "office action", "prosecution", "portfolio"]⟩,
  ⟨"Estate-Planning", 0.88,
    ["estate planning", "estate", "trust", "will", "probate",
     "trustee", "beneficiary", "inheritance", "succession", "gift",
     "estate tax", "generation skipping", "living trust", "testamentary",
     "administration", "executor", "fiduciary"]⟩,
  ⟨"Family-Law", 0.68,
    ["divorce", "dissolution", "marriage", "custody", "child support",
     "alimony", "spousal support", "marital", "family law", "prenup",
     "postnup", "separation", "domestic", "parenting", "visitation"]⟩,
  ⟨"Tax-Law", 0.75,
    ["tax", "irs", "taxation", "tax planning", "tax compliance",
     "tax return", "audit", "tax dispute", "tax opinion", "tax structure"]⟩,
  ⟨"Immigration-Law", 0.78,
    ["immigration", "visa", "h-1b", "green card", "citizenship",
     "naturalization", "deportation", "asylum", "refugee", "work permit",
     "uscis", "ice", "border", "immigrant"]⟩,
  ⟨"Regulatory-Compliance", 0.83,
    ["regulatory", "compliance", "regulation", "permit", "license",
     "government", "agency", "fda", "epa", "osha", "ftc", "fcc",
     "administrative", "rulemaking", "enforcement", "investigation"]⟩,
  ⟨"Cannabis-Law", 0.72,
    ["cannabis", "marijuana", "dispensary", "cultivation", "cbd",
     "thc", "hemp", "marijuana license", "cannabis license"]⟩,
  ⟨"Healthcare-Law", 0.74,
    ["healthcare", "medical", "hospital", "physician", "hipaa",
     "health insurance", "medicare", "medicaid", "pharmaceutical"]⟩,
  ⟨"General-Matters", 0.65,
    ["general matters", "general", "advice", "counsel", "consultation",
     "miscellaneous", "various", "other"]⟩,
  ⟨"Internal-Time", 0,
    ["internal time", "internal", "admin", "administrative", "training",
     "business development", "marketing", "firm", "vacation", "pto",
     "sick", "holiday"]⟩]

/-- `classify_matter_legalbench` (src/main.py lines 359-378); `none` models a
`NaN` matter name (`pd.isna`). -/
def classify_matter_legalbench : Option String → String × ℚ
  | none => ("General-Matters", 0.65)
  | some matter_name =>
      classify_core LEGALBENCH_TASKS ("General-Matters", 0.65)
        (lowerStr matter_name.data)

/-- `RIMON_OLI_BENCHMARK` (src/main.py lines 222-291), in declaration order. -/
def RIMON_OLI_BENCHMARK : List Category := [
  ⟨"100% AI Replaceable - Routine Corporate & Documents", 1,
    ["general corporate", "corporate matters", "general representation",
     "retainer", "general matters", "general", "advice and counsel",
     "corporate advice", "general corporate advice"]⟩,
  ⟨"100% AI Replaceable - Estate Planning", 1,
    ["estate planning", "estate", "trust", "will", "probate",
     "trust administration"]⟩,
  ⟨"70% AI Replaceable - Transactional Work", 0.70,
    ["acquisition", "merger", "purchase", "sale", "transaction",
     "financing", "investment", "fund", "securities",
     "lease", "real estate", "property"]⟩,
  ⟨"70% AI Replaceable - IP & Regulatory", 0.70,
    ["patent", "trademark", "copyright", "intellectual property",
     "regulatory", "compliance", "permit", "license",
     "immigration", "visa"]⟩,
  ⟨"30% AI Replaceable - Litigation & Complex Matters", 0.30,
    [" v ", " v. ", " vs ", " vs. ", "litigation", "lawsuit", "dispute",
     "arbitration", "trial", "court", "motion", "discovery",
     "bankruptcy", "receiver", "settlement"]⟩,
  ⟨"30% AI Replaceable - Employment & Family Law", 0.30,
    ["employment", "hr ", "labor", "termination",
     "divorce", "dissolution", "custody", "family law",
     "tax"]⟩,
  ⟨"0% AI Replaceable - Internal & Strategic", 0,
    ["internal time", "vacation", "pto", "holiday", "training",
     "business development", "marketing", "admin"]⟩]

/-- The OLI category that `classify_matter_oli` skips in its scoring loop. -/
def oliOverride : String := "0% AI Replaceable - Internal & Strategic"

/-- `classify_matter_oli` (src/main.py lines 380-405): the internal-time /
vacation override is checked before scoring, and the override category is
excluded (`continue`) from the scoring loop. -/
def classify_matter_oli : Option String → String × ℚ
  | none => ("Unclassified", 0)
  | some matter_name =>
      let matter_lower := lowerStr matter_name.data
      if containsSub "internal time".data matter_lower
          || containsSub "vacation".data matter_lower then
        (oliOverride, 0)
      else
        classify_core (RIMON_OLI_BENCHMARK.filter (fun c => c.name != oliOverride))
          ("Unclassified", 0) matter_lower

/-- `TASK_LEVEL_AUTOMATION` (src/main.py lines 297-316), in declaration order. -/
def TASK_LEVEL_AUTOMATION : List Category := [
  ⟨"Document-Review-Standard", 0.95,
    ["review agreement", "review contract", "review and revise", "review draft",
     "review standard", "review form", "review template", "review nda",
     "review msa", "review amendment", "review lease"]⟩,
  ⟨"Email-Status-Updates", 0.92,
    ["email regarding status", "email correspondence regarding", "status update",
     "follow up email", "exchange emails", "email to client regarding status"]⟩,
  ⟨"Document-Drafting-Standard", 0.93,
    ["draft amendment", "draft addendum", "draft standard", "draft form",
     "draft certificate", "draft notice", "draft letter agreement",
     "prepare draft amendment"]⟩,
  ⟨"Research-Straightforward", 0.88,
    ["research case law", "research statute", "research regulation",
     "research precedent", "legal research regarding"]⟩,
  ⟨"Form-Completion", 0.96,
    ["complete form", "fill out", "prepare filing", "file notice",
     "file certificate", "submit form"]⟩,
  ⟨"Document-Analysis", 0.85,
    ["review and analyze", "analyze agreement", "analyze contract",
     "analyze terms", "analyze provision", "review for compliance",
     "analyze draft"]⟩,
  ⟨"Due-Diligence-Review", 0.82,
    ["due diligence", "dd review", "review due diligence",
     "diligence materials", "data room review"]⟩,
  ⟨"Discovery-Review", 0.87,
    ["review discovery", "review production", "review interrogator",
     "review request for production", "discovery response",
     "respond to discovery"]⟩,
  ⟨"Clause-Extraction", 0.90,
    ["extract provision", "identify clause", "locate language",
     "find provision", "pull clause", "summarize terms"]⟩,
  ⟨"Drafting-Complex", 0.65,
    ["draft purchase agreement", "draft psa", "draft merger agreement",
     "draft complex", "draft financing", "draft loan", "draft settlement"]⟩,
  ⟨"Negotiation-Support", 0.60,
    ["revise per comments", "address comments", "incorporate revisions",
     "revise based on", "respond to comments", "counter proposal"]⟩,
  ⟨"Legal-Memos", 0.55,
    ["draft memo", "memorandum", "legal opinion", "prepare memo",
     "draft analysis", "memo regarding"]⟩,
  ⟨"Client-Calls", 0.45,
    ["call with client", "telephone conference with", "conference call",
     "client meeting", "discuss with client", "call regarding", "phone call"]⟩,
  ⟨"Court-Appearances", 0.30,
    ["court appearance", "appear in court", "attend hearing", "oral argument",
     "trial", "deposition", "attend conference"]⟩,
  ⟨"Strategic-Advice", 0.35,
    ["advise regarding", "counsel regarding", "discuss strategy",
     "strategic advice", "recommendation regarding", "consult on"]⟩,
  ⟨"Negotiations", 0.25,
    ["negotiate", "negotiation", "negotiating", "negotiate terms",
     "negotiate with", "settlement discussion"]⟩,
  ⟨"Internal-Admin", 0.10,
    ["internal", "administrative", "firm meeting", "training",
     "business development", "marketing", "time entry", "billing"]⟩,
  ⟨"General-Communication", 0.50,
    ["email", "correspondence", "communicate", "discuss", "exchange",
     "speak with", "follow up"]⟩]

/-- `classify_task_description` (src/main.py lines 318-331). -/
def classify_task_description : Option String → String × ℚ
  | none => ("General-Communication", 0.50)
  | some description =>
      classify_core TASK_LEVEL_AUTOMATION ("General-Communication", 0.50)
        (lowerStr description.data)

/-- Hours preprocessing of `load_data` (src/main.py lines 417-420):
`pd.to_numeric(..., errors='coerce')` followed by `.fillna(0)`.  `none`
models a missing or non-numeric cell (coerced to `NaN`); a numeric cell
passes through unchanged. -/
def loadHours (raw : Option ℚ) : ℚ := raw.getD 0

/-- `Automatable_Hours = Billable Hours * Automation_Potential` (line 555). -/
def automatableHours (hours potential : ℚ) : ℚ := hours * potential

/-- `Manual_Hours = Billable Hours - Automatable_Hours` (line 556). -/
def manualHours (hours potential : ℚ) : ℚ :=
  hours - automatableHours hours potential

/-- A loaded time entry as seen by the flat-fee step: its `Rate Type` tag and
its `Billable Hours` value. -/
structure RawEntry where
  rate_type : String
  billable_hours : ℚ

/-- Flat-fee handling (src/main.py lines 520-521): `Original_Hours` keeps a
copy of `Billable Hours`, then rows with `Rate Type == 'Flat Fee'` get their
`Billable Hours` set to `1.0`.  Result: `(Original_Hours, Billable Hours)`. -/
def applyFlatFee (e : RawEntry) : ℚ × ℚ :=
  (e.billable_hours, if e.rate_type = "Flat Fee" then 1 else e.billable_hours)

/-- The distinct non-null key values of a pandas `groupby`: a row whose key is
`none` (`NaN`) belongs to no group — pandas' default `dropna=True` behaviour
for group keys, as in `groupby(['Year','Month',...])` (line 689) and
`groupby('User Name')` (line 837). -/
def groupKeys {K : Type} [DecidableEq K] (rows : List (Option K × ℚ)) : List K :=
  (rows.filterMap (fun r => r.1)).dedup

/-- The summed value of one group of a pandas `groupby(...).agg('sum')`. -/
def groupSum {K : Type} [DecidableEq K] (rows : List (Option K × ℚ)) (k : K) : ℚ :=
  ((rows.filter (fun r => decide (r.1 = some k))).map (fun r => r.2)).sum

/-- `groupby(key).agg({'Billable Hours': 'sum'})` over one grouping key. -/
def aggregate {K : Type} [DecidableEq K] (rows : List (Option K × ℚ)) :
    List (K × ℚ) :=
  (groupKeys rows).map (fun k => (k, groupSum rows k))

/-- `df['Matter Name'] = df['Matter Name'].fillna('Unknown')` (line 429),
applied before any grouping by matter name. -/
def fillUnknown (rows : List (Option String × ℚ)) : List (Option String × ℚ) :=
  rows.map (fun r => (some (r.1.getD "Unknown"), r.2))

/-- `automation_rate = (automatable_hours / total_hours * 100) if total_hours > 0
else 0` (line 650). -/
def automationRate (automatable total : ℚ) : ℚ :=
  if total > 0 then automatable / total * 100 else 0

/-- `roi = (net_savings / ai_cost * 100) if ai_cost > 0 else 0` (line 1218;
the scenario table at line 1466 uses the same guarded form). -/
def roiPct (net aiCost : ℚ) : ℚ :=
  if aiCost > 0 then net / aiCost * 100 else 0

/-- `projected_automatable/projected_total*100` (line 1335): the division has
no guard, so a zero denominator yields no numeric result (`none` models the
NaN/failed division). -/
def projectedSharePct (pa pt : ℚ) : Option ℚ :=
  if pt = 0 then none else some (pa / pt * 100)

/-- `hours_saved/total_hours*100` (line 1226): likewise unguarded. -/
def hoursSavedSharePct (hs total : ℚ) : Option ℚ :=
  if total = 0 then none else some (hs / total * 100)

/-- One row of `current_data` in the Predictions tab (lines 1304-1320): its
parsed `Month` and its `Billable Hours` / `Automatable_Hours` values. -/
structure MonthEntry where
  month : Nat
  hours : ℚ
  auto : ℚ

/-- `months_elapsed = latest_month = current_data['Month'].max()` (lines
1307, 1314). -/
def latestMonth (l : List MonthEntry) : Nat :=
  (l.map (fun e => e.month)).foldr max 0

/-- The distinct months present in the data: the group index of
`current_data.groupby('Month')` (line 1309). -/
def observedMonths (l : List MonthEntry) : List Nat :=
  (l.map (fun e => e.month)).dedup

/-- Per-month summed `Billable Hours` (`groupby('Month').agg('sum')`). -/
def monthlyTotal (l : List MonthEntry) (m : Nat) : ℚ :=
  ((l.filter (fun e => decide (e.month = m))).map (fun e => e.hours)).sum

/-- Per-month summed `Automatable_Hours`. -/
def monthlyAuto (l : List MonthEntry) (m : Nat) : ℚ :=
  ((l.filter (fun e => decide (e.month = m))).map (fun e => e.auto)).sum

/-- `monthly_avg['Billable Hours']`: the `.mean()` over the per-month sums
(line 1312), i.e. their sum divided by the number of observed months. -/
def monthlyAvgTotal (l : List MonthEntry) : ℚ :=
  ((observedMonths l).map (monthlyTotal l)).sum / (observedMonths l).length

/-- `monthly_avg['Automatable_Hours']`. -/
def monthlyAvgAuto (l : List MonthEntry) : ℚ :=
  ((observedMonths l).map (monthlyAuto l)).sum / (observedMonths l).length

/-- `months_remaining = 12 - months_elapsed` (line 1315), where
`months_elapsed` is the latest month NUMBER, not a count. -/
def monthsRemaining (l : List MonthEntry) : Nat := 12 - latestMonth l

/-- `projected_total = current_data['Billable Hours'].sum() +
monthly_avg['Billable Hours'] * months_remaining` (lines 1317-1318). -/
def projectedTotal (l : List MonthEntry) : ℚ :=
  (l.map (fun e => e.hours)).sum + monthlyAvgTotal l * (monthsRemaining l : ℚ)

/-- `projected_automatable` (lines 1319-1320). -/
def projectedAutomatable (l : List MonthEntry) : ℚ :=
  (l.map (fun e => e.auto)).sum + monthlyAvgAuto l * (monthsRemaining l : ℚ)

/-- The number of observed months (spec terminology `months_observed`). -/
def monthsObserved (l : List MonthEntry) : Nat := (observedMonths l).length

/-- Modelled from the spec: the spec's projection formula, in which
`months_remaining = 12 − months_observed` is computed from the COUNT of
observed months.  Kept for refinement comparison with `projectedTotal`,
which follows the code (12 − latest month number). -/
def projectedTotalSpec (l : List MonthEntry) : ℚ :=
  (l.map (fun e => e.hours)).sum
    + monthlyAvgTotal l * ((12 - monthsObserved l : Nat) : ℚ)

/-! ## Helper lemmas about the classifier selection -/

/-- `pickBest` only ever returns an element of its input list. -/
lemma pickBest_mem : ∀ (l : List (Category × Nat)) (y : Category × Nat),
    pickBest l = some y → y ∈ l := by
  intro l
  induction l with
  | nil => intro y h; simp [pickBest] at h
  | cons x rest ih =>
      intro y h
      rw [pickBest] at h
      cases hr : pickBest rest with
      | none =>
          rw [hr] at h
          simp only [Option.elim, Option.some.injEq] at h
          exact h ▸ List.mem_cons_self x rest
      | some z =>
          rw [hr] at h
          simp only [Option.elim, Option.some.injEq] at h
          by_cases hx : x.2 < z.2
          · rw [if_pos hx] at h
            exact List.mem_cons_of_mem x (h ▸ ih z hr)
          · rw [if_neg hx] at h
            exact h ▸ List.mem_cons_self x rest

/-- The selection underlying `classify_core`: when position `i` of the
taxonomy scores positively, at least as high as every category, and strictly
higher than every earlier-declared category, then the scoring loop picks
exactly that category. -/
lemma classify_core_first :
    ∀ (tax : List Category) (i : Nat) (hi : i < tax.length) (text : List Char),
      0 < keywordScore text (tax.get ⟨i, hi⟩) →
      (∀ c ∈ tax, keywordScore text c ≤ keywordScore text (tax.get ⟨i, hi⟩)) →
      (∀ j (hj : j < i),
        keywordScore text (tax.get ⟨j, Nat.lt_trans hj hi⟩)
          < keywordScore text (tax.get ⟨i, hi⟩)) →
      pickBest ((tax.map (fun c => (c, keywordScore text c))).filter
          (fun p => decide (0 < p.2)))
        = some (tax.get ⟨i, hi⟩, keywordScore text (tax.get ⟨i, hi⟩)) := by
  intro tax
  induction tax with
  | nil => intro i hi; exact absurd hi (Nat.not_lt_zero i)
  | cons c rest ih =>
      intro i hi text hpos hmax hfirst
      cases i with
      | zero =>
          have hc : decide (0 < keywordScore text c) = true := decide_eq_true hpos
          rw [List.map_cons, List.filter_cons, hc]
          simp only [if_true]
          rw [pickBest]
          cases hF : pickBest ((rest.map (fun c => (c, keywordScore text c))).filter
              (fun p => decide (0 < p.2))) with
          | none => rfl
          | some z =>
              have hz := pickBest_mem _ z hF
              have hz2 : z ∈ rest.map (fun c => (c, keywordScore text c)) :=
                List.mem_of_mem_filter hz
              obtain ⟨c', hc', hcz⟩ := List.mem_map.mp hz2
              have hle : z.2 ≤ keywordScore text c := by
                have := hmax c' (List.mem_cons_of_mem c hc')
                rw [← hcz]
                exact this
              simp only [Option.elim]
              rw [if_neg (Nat.not_lt.mpr hle)]
              rfl
      | succ j =>
          have hj : j < rest.length := Nat.lt_of_succ_lt_succ hi
          have hget : (c :: rest).get ⟨j + 1, hi⟩ = rest.get ⟨j, hj⟩ := rfl
          have hpos' : 0 < keywordScore text (rest.get ⟨j, hj⟩) := hget ▸ hpos
          have hmax' : ∀ c' ∈ rest,
              keywordScore text c' ≤ keywordScore text (rest.get ⟨j, hj⟩) :=
            fun c' hc' => hget ▸ hmax c' (List.mem_cons_of_mem c hc')
          have hfirst' : ∀ k (hk : k < j),
              keywordScore text (rest.get ⟨k, Nat.lt_trans hk hj⟩)
                < keywordScore text (rest.get ⟨j, hj⟩) := by
            intro k hk
            have := hfirst (k + 1) (Nat.succ_lt_succ hk)
            exact this
          have hIH := ih j hj text hpos' hmax' hfirst'
          have hcr : keywordScore text c < keywordScore text (rest.get ⟨j, hj⟩) := by
            have := hfirst 0 (Nat.succ_pos j)
            exact this
          rw [List.map_cons, List.filter_cons]
          by_cases hc : 0 < keywordScore text c
          · rw [decide_eq_true hc]
            simp only [if_true]
            rw [pickBest, hIH]
            simp only [Option.elim]
            rw [if_pos hcr]
            rfl
          · rw [decide_eq_false hc]
            simp only [Bool.false_eq_true, if_false]
            exact hIH

/-- `classify_core` either returns the default, or the `(name, potential)`
pair of some category of the taxonomy it was given. -/
lemma classify_core_cases (tax : List Category) (dflt : String × ℚ)
    (text : List Char) :
    classify_core tax dflt text = dflt ∨
      ∃ c ∈ tax, classify_core tax dflt text = (c.name, c.automation_potential) := by
  unfold classify_core
  cases hp : pickBest ((tax.map (fun c => (c, keywordScore text c))).filter
      (fun p => decide (0 < p.2))) with
  | none => exact Or.inl rfl
  | some p =>
      right
      have hm := pickBest_mem _ p hp
      have hm2 : p ∈ tax.map (fun c => (c, keywordScore text c)) :=
        List.mem_of_mem_filter hm
      obtain ⟨c, hc, hcp⟩ := List.mem_map.mp hm2
      exact ⟨c, hc, by rw [← hcp]⟩

/-! ## Helper lemmas about the groupby aggregation -/

lemma groupSum_cons {K : Type} [DecidableEq K] (e : Option K × ℚ)
    (rows : List (Option K × ℚ)) (k : K) :
    groupSum (e :: rows) k = (if e.1 = some k then e.2 else 0) + groupSum rows k := by
  by_cases h : e.1 = some k <;> simp [groupSum, List.filter_cons, h]

lemma sum_map_add' {α : Type} (l : List α) (f g : α → ℚ) :
    (l.map (fun x => f x + g x)).sum = (l.map f).sum + (l.map g).sum := by
  induction l with
  | nil => simp
  | cons a l ih => simp only [List.map_cons, List.sum_cons, ih]; ring

/-- Summing `if v = k then q else 0` over a duplicate-free key list picks up
`q` exactly when `v` is a key of the list. -/
lemma sum_ite_mem {K : Type} [DecidableEq K] (v : K) (q : ℚ) :
    ∀ ks : List K, ks.Nodup →
      (ks.map (fun k => if v = k then q else 0)).sum
        = if v ∈ ks then q else 0 := by
  intro ks
  induction ks with
  | nil => intro _; simp
  | cons k ks ih =>
      intro hnd
      have hk : k ∉ ks := (List.nodup_cons.mp hnd).1
      have hnd' : ks.Nodup := (List.nodup_cons.mp hnd).2
      by_cases hvk : v = k
      · subst hvk
        simp [ih hnd', hk]
      · simp [hvk, ih hnd', List.mem_cons]

/-- Partition identity: summing the per-group sums over a duplicate-free key
list covering every non-null key equals the sum over the rows whose key is
non-null. -/
lemma agg_core {K : Type} [DecidableEq K] (ks : List K) (hnd : ks.Nodup) :
    ∀ rows : List (Option K × ℚ),
      (∀ r ∈ rows, ∀ v, r.1 = some v → v ∈ ks) →
      (ks.map (fun k => groupSum rows k)).sum
        = ((rows.filter (fun r => r.1.isSome)).map (fun r => r.2)).sum := by
  intro rows
  induction rows with
  | nil => intro _; simp [groupSum]
  | cons e rows ih =>
      intro hcov
      have hcov' : ∀ r ∈ rows, ∀ v, r.1 = some v → v ∈ ks :=
        fun r hr => hcov r (List.mem_cons_of_mem e hr)
      have step1 : (ks.map (fun k => groupSum (e :: rows) k)).sum
          = (ks.map (fun k => if e.1 = some k then e.2 else 0)).sum
            + (ks.map (fun k => groupSum rows k)).sum := by
        simp only [groupSum_cons]
        exact sum_map_add' ks _ _
      rw [step1, ih hcov']
      cases he : e.1 with
      | none =>
          have hz : (ks.map (fun k => if (none : Option K) = some k then e.2 else 0)).sum
              = 0 := by simp
          rw [hz]
          simp [List.filter_cons, he]
      | some v =>
          have hv : v ∈ ks := hcov e (List.mem_cons_self e rows) v he
          have hz : (ks.map (fun k => if some v = some k then e.2 else 0)).sum = e.2 := by
            simp only [Option.some.injEq]
            rw [sum_ite_mem v e.2 ks hnd]
            exact if_pos hv
          rw [hz]
          simp [List.filter_cons, he]

/-- For every grouping key type, the grouped sums add up to the sum over the
rows whose key is present; rows with a `NaN` key are dropped by the groupby. -/
lemma aggregate_sum {K : Type} [DecidableEq K] (rows : List (Option K × ℚ)) :
    ((aggregate rows).map (fun r => r.2)).sum
      = ((rows.filter (fun r => r.1.isSome)).map (fun r => r.2)).sum := by
  unfold aggregate
  rw [List.map_map]
  exact agg_core (groupKeys rows) (List.nodup_dedup _) rows
    (fun r hr v hv => List.mem_dedup.mpr (List.mem_filterMap.mpr ⟨r, hr, hv⟩))

/-! ## Helper lemmas about the projection -/

lemma mem_le_foldr_max : ∀ (L : List Nat) (m : Nat), m ∈ L → m ≤ L.foldr max 0 := by
  intro L
  induction L with
  | nil => intro m h; simp at h
  | cons a L ih =>
      intro m h
      rcases List.mem_cons.mp h with rfl | h
      · exact Nat.le_max_left m (L.foldr max 0)
      · exact Nat.le_trans (ih m h) (Nat.le_max_right a (L.foldr max 0))

lemma foldr_max_le : ∀ (L : List Nat) (b : Nat), (∀ m ∈ L, m ≤ b) → L.foldr max 0 ≤ b := by
  intro L
  induction L with
  | nil => intro b _; exact Nat.zero_le b
  | cons a L ih =>
      intro b h
      exact Nat.max_le.mpr ⟨h a (List.mem_cons_self a L), ih b (fun m hm => h m (List.mem_cons_of_mem a hm))⟩

/-- If all months lie in 1..12 and twelve distinct months are observed, the
latest observed month is 12. -/
lemma latestMonth_of_full_year (l : List MonthEntry)
    (hb : ∀ e ∈ l, 1 ≤ e.month ∧ e.month ≤ 12)
    (hc : monthsObserved l = 12) : latestMonth l = 12 := by
  have hnd : (observedMonths l).Nodup := List.nodup_dedup _
  have hmem_bound : ∀ m ∈ observedMonths l, 1 ≤ m ∧ m ≤ 12 := by
    intro m hm
    obtain ⟨e, he, rfl⟩ := List.mem_map.mp (List.mem_dedup.mp hm)
    exact hb e he
  have h12 : 12 ∈ observedMonths l := by
    by_contra h12
    have hsub : (observedMonths l).toFinset ⊆ Finset.Icc 1 11 := by
      intro m hm
      have hm' := List.mem_toFinset.mp hm
      have hbm := hmem_bound m hm'
      have hne : m ≠ 12 := fun h => h12 (h ▸ hm')
      exact Finset.mem_Icc.mpr ⟨hbm.1, by omega⟩
    have hcard : (observedMonths l).toFinset.card = 12 := by
      rw [List.toFinset_card_of_nodup hnd]
      exact hc
    have hle := Finset.card_le_card hsub
    rw [hcard, Nat.card_Icc] at hle
    omega
  have hge : 12 ≤ latestMonth l :=
    mem_le_foldr_max _ 12 (List.mem_dedup.mp h12)
  have hle : latestMonth l ≤ 12 :=
    foldr_max_le _ 12 (fun m hm => by
      obtain ⟨e, he, rfl⟩ := List.mem_map.mp hm
      exact (hb e he).2)
  omega

/-! ## Claim theorems -/

/-- C1 (counterexample): classifying "Acquisition Agreement Review" under the
broad (LegalBench) taxonomy does NOT return the M&A deal-terms category with
automation_potential 0.82: the text also matches the keyword "agreement" of
the earlier-declared Contract-Clause-Identification category, which ties at
score 1 and wins the tie. -/
theorem acquisition_review_not_ma :
    classify_matter_legalbench (some "Acquisition Agreement Review")
      ≠ ("MA-Deal-Terms", 0.82) := by decide

/-- C1 (amended): classifying "Acquisition Agreement Review" under the broad
taxonomy returns Contract-Clause-Identification with automation_potential
0.92 (tied at score 1 with MA-Deal-Terms, and declared earlier), so a 10-hour
entry gets automatable_hours = 9.2 and manual_hours = 0.8. -/
theorem acquisition_review_contract_clause :
    classify_matter_legalbench (some "Acquisition Agreement Review")
      = ("Contract-Clause-Identification", 0.92)
    ∧ automatableHours 10
        (classify_matter_legalbench (some "Acquisition Agreement Review")).2 = 9.2
    ∧ manualHours 10
        (classify_matter_legalbench (some "Acquisition Agreement Review")).2 = 0.8 := by
  have h : classify_matter_legalbench (some "Acquisition Agreement Review")
      = ("Contract-Clause-Identification", 0.92) := rfl
  refine ⟨h, ?_, ?_⟩ <;> rw [h] <;> norm_num [automatableHours, manualHours]

/-- C2 (counterexample): a negative numeric hours value is NOT clamped to 0
by the loading step: `to_numeric(...).fillna(0)` passes -5 through unchanged,
so it enters the sums as a negative contribution. -/
theorem negative_hours_not_clamped :
    loadHours (some (-5)) = -5 ∧ ¬ (0 ≤ loadHours (some (-5))) := by
  refine ⟨rfl, ?_⟩
  norm_num [loadHours]

/-- C2 (amended): the loading step coerces missing/non-numeric hours to 0
(`fillna(0)`), but performs no clamping of numeric values: every numeric
value, negative ones included, passes into the sums unchanged. -/
theorem load_hours_fillna_only :
    loadHours none = 0 ∧ ∀ q : ℚ, loadHours (some q) = q :=
  ⟨rfl, fun _ => rfl⟩

/-- C3 (counterexample): grouping by a key that can be missing (e.g. Month,
from an unparseable date) silently drops the row: one entry of 5 hours with a
missing month yields grouped totals summing to 0, not 5 — there is no
"unknown" bucket for that dimension. -/
theorem month_group_drops_missing_key :
    ¬ (((aggregate [((none : Option Nat), (5 : ℚ))]).map (fun r => r.2)).sum
        = ([((none : Option Nat), (5 : ℚ))].map (fun r => r.2)).sum) := by
  have h : ((aggregate [((none : Option Nat), (5 : ℚ))]).map (fun r => r.2)).sum = 0 := rfl
  rw [h]
  norm_num

/-- C3 (amended): aggregation is sum-preserving for the matter-name grouping,
whose missing keys are first replaced by an explicit "Unknown" bucket
(`fillna('Unknown')`); for every other grouping (year/month, user) the
grouped totals sum to the hours of the rows whose key is present — rows with
a missing grouping key are dropped by the groupby, not bucketed. -/
theorem aggregation_sum_preservation :
    (∀ rows : List (Option String × ℚ),
      ((aggregate (fillUnknown rows)).map (fun r => r.2)).sum
        = (rows.map (fun r => r.2)).sum)
    ∧ (∀ rows : List (Option Nat × ℚ),
      ((aggregate rows).map (fun r => r.2)).sum
        = ((rows.filter (fun r => r.1.isSome)).map (fun r => r.2)).sum) := by
  constructor
  · intro rows
    have h2 : (fillUnknown rows).filter (fun r => r.1.isSome) = fillUnknown rows :=
      List.filter_eq_self.mpr (fun r hr => by
        obtain ⟨a, _, rfl⟩ := List.mem_map.mp hr
        rfl)
    have h1 : (fillUnknown rows).map (fun r => r.2) = rows.map (fun r => r.2) := by
      unfold fillUnknown
      rw [List.map_map]
      rfl
    rw [aggregate_sum, h2, h1]
  · intro rows
    exact aggregate_sum rows

/-- C4 (counterexample): the projected-automatable-share metric
(`projected_automatable/projected_total*100`) does NOT return 0 when its
denominator is 0 — the division is unguarded and produces no numeric 0. -/
theorem projected_share_div_zero_not_zero :
    ¬ (projectedSharePct 0 0 = some 0) := by
  simp [projectedSharePct]

/-- C4 (amended): of the four rate/percentage divisions, the automation rate
and the ROI short-circuit to 0 on a zero denominator, but the
projected-automatable share and the hours-saved share divide without any
guard and so yield no numeric result on a zero denominator. -/
theorem division_guards :
    (∀ a : ℚ, automationRate a 0 = 0)
    ∧ (∀ n : ℚ, roiPct n 0 = 0)
    ∧ (∀ pa : ℚ, projectedSharePct pa 0 = none)
    ∧ (∀ hs : ℚ, hoursSavedSharePct hs 0 = none) := by
  refine ⟨fun a => ?_, fun n => ?_, fun pa => ?_, fun hs => ?_⟩ <;>
    simp [automationRate, roiPct, projectedSharePct, hoursSavedSharePct]

/-- C5: for every text and taxonomy (with any default), when a category
scores a nonzero keyword-match score that no category beats and every
earlier-declared category scores strictly below, the classifier returns that
category — in particular, among tied maximal scorers the earliest-declared
category wins, a stable and deterministic rule. -/
theorem classify_tie_first_declared (tax : List Category) (dflt : String × ℚ)
    (text : List Char) (i : Nat) (hi : i < tax.length)
    (hpos : 0 < keywordScore text (tax.get ⟨i, hi⟩))
    (hmax : ∀ c ∈ tax, keywordScore text c ≤ keywordScore text (tax.get ⟨i, hi⟩))
    (hfirst : ∀ j (hj : j < i),
      keywordScore text (tax.get ⟨j, Nat.lt_trans hj hi⟩)
        < keywordScore text (tax.get ⟨i, hi⟩)) :
    classify_core tax dflt text
      = ((tax.get ⟨i, hi⟩).name, (tax.get ⟨i, hi⟩).automation_potential) := by
  unfold classify_core
  rw [classify_core_first tax i hi text hpos hmax hfirst]

/-- C5 (witness): "acquisition agreement" scores 1 for both
Contract-Clause-Identification (position 0, keyword "agreement") and
MA-Deal-Terms (position 1, keyword "acquisition") in the broad taxonomy, and
the classifier returns the first-declared of the two. -/
theorem classify_tie_first_declared_witness :
    keywordScore (lowerStr "acquisition agreement".data)
        (LEGALBENCH_TASKS.get ⟨0, by decide⟩) = 1
    ∧ keywordScore (lowerStr "acquisition agreement".data)
        (LEGALBENCH_TASKS.get ⟨1, by decide⟩) = 1
    ∧ classify_core LEGALBENCH_TASKS ("General-Matters", 0.65)
        (lowerStr "acquisition agreement".data)
      = ("Contract-Clause-Identification", 0.92) := by
  refine ⟨by decide, by decide, ?_⟩
  have h := classify_tie_first_declared LEGALBENCH_TASKS ("General-Matters", 0.65)
    (lowerStr "acquisition agreement".data) 0 (by decide) (by decide) (by decide)
    (fun j hj => absurd hj (Nat.not_lt_zero j))
  exact h.trans rfl

/-- C6: every text containing an override trigger substring ("internal time"
or "vacation", case-insensitively) is classified under the tiered (OLI)
taxonomy as the zero-automation override category with potential 0.0,
regardless of any other keyword matches: the trigger check precedes
scoring. -/
theorem oli_override_short_circuit (s : String)
    (h : containsSub "internal time".data (lowerStr s.data) = true
      ∨ containsSub "vacation".data (lowerStr s.data) = true) :
    classify_matter_oli (some s)
      = ("0% AI Replaceable - Internal & Strategic", 0) := by
  have hcond : (containsSub "internal time".data (lowerStr s.data)
      || containsSub "vacation".data (lowerStr s.data)) = true := by
    rcases h with h | h <;> simp [h]
  simp [classify_matter_oli, hcond, oliOverride]

/-- C6 (witness): "Internal Time - Training" contains the trigger
"internal time" and is forced to the override category with potential 0. -/
theorem oli_override_witness :
    containsSub "internal time".data (lowerStr "Internal Time - Training".data) = true
    ∧ classify_matter_oli (some "Internal Time - Training")
        = ("0% AI Replaceable - Internal & Strategic", 0) :=
  ⟨by decide, oli_override_short_circuit "Internal Time - Training" (Or.inl (by decide))⟩

/-- C7: an entry whose rate type is exactly "Flat Fee" gets its analysis
hours set to 1.0 while its original recorded hours are kept unmodified in the
separate `Original_Hours` field; an entry with any other rate type keeps its
analysis hours equal to its raw hours. -/
theorem flat_fee_analysis_hours (e : RawEntry) :
    (e.rate_type = "Flat Fee" → applyFlatFee e = (e.billable_hours, 1))
    ∧ (e.rate_type ≠ "Flat Fee" → applyFlatFee e = (e.billable_hours, e.billable_hours)) := by
  constructor <;> intro h <;> simp [applyFlatFee, h]

/-- C7 (witness): a flat-fee entry of 12.5 raw hours keeps 12.5 as its
original hours and gets 1 as its analysis hours; an hourly entry of 3 hours
is unchanged. -/
theorem flat_fee_witness :
    applyFlatFee ⟨"Flat Fee", 12.5⟩ = (12.5, 1)
    ∧ applyFlatFee ⟨"Hourly", 3⟩ = (3, 3) :=
  ⟨(flat_fee_analysis_hours ⟨"Flat Fee", 12.5⟩).1 rfl,
   (flat_fee_analysis_hours ⟨"Hourly", 3⟩).2 (by decide)⟩

/-- C8 (counterexample): the projection does NOT satisfy the formula with
months_remaining = 12 − (count of observed months): with a single entry of
100 hours in month 12, the code projects 100 (months_remaining = 12 − 12 = 0
from the latest month NUMBER), while the count-based formula would give
100 + 100 × 11 = 1200. -/
theorem projection_months_observed_counterexample :
    projectedTotal [⟨12, 100, 50⟩] ≠ projectedTotalSpec [⟨12, 100, 50⟩] := by
  have h1 : projectedTotal [⟨12, 100, 50⟩] = 100 := by
    norm_num [projectedTotal, monthlyAvgTotal, monthsRemaining,
      latestMonth, observedMonths, monthlyTotal]
  have h2 : projectedTotalSpec [⟨12, 100, 50⟩] = 1200 := by
    norm_num [projectedTotalSpec, monthlyAvgTotal, monthsObserved,
      observedMonths, monthlyTotal]
  rw [h1, h2]
  norm_num

/-- C8 (amended): months_remaining is computed as 12 minus the LATEST
observed month number, not 12 minus the count of observed months; the
full-year identity still holds: when all 12 months are observed (months in
1..12 and twelve distinct months present), projected_total equals the actual
total and projected_automatable equals the actual automatable total, with no
extrapolation contribution. -/
theorem projection_latest_month_identity (l : List MonthEntry)
    (hb : ∀ e ∈ l, 1 ≤ e.month ∧ e.month ≤ 12)
    (hc : monthsObserved l = 12) :
    projectedTotal l = (l.map (fun e => e.hours)).sum
    ∧ projectedAutomatable l = (l.map (fun e => e.auto)).sum := by
  have h12 := latestMonth_of_full_year l hb hc
  constructor
  · simp [projectedTotal, monthsRemaining, h12]
  · simp [projectedAutomatable, monthsRemaining, h12]

/-- C8 (witness): a data set with one entry in each of the twelve months
satisfies the hypotheses, and its projection equals its actual totals. -/
theorem projection_identity_witness :
    projectedTotal [⟨1, 2, 1⟩, ⟨2, 2, 1⟩, ⟨3, 2, 1⟩, ⟨4, 2, 1⟩, ⟨5, 2, 1⟩,
        ⟨6, 2, 1⟩, ⟨7, 2, 1⟩, ⟨8, 2, 1⟩, ⟨9, 2, 1⟩, ⟨10, 2, 1⟩, ⟨11, 2, 1⟩,
        ⟨12, 2, 1⟩]
      = (([⟨1, 2, 1⟩, ⟨2, 2, 1⟩, ⟨3, 2, 1⟩, ⟨4, 2, 1⟩, ⟨5, 2, 1⟩,
          ⟨6, 2, 1⟩, ⟨7, 2, 1⟩, ⟨8, 2, 1⟩, ⟨9, 2, 1⟩, ⟨10, 2, 1⟩, ⟨11, 2, 1⟩,
          ⟨12, 2, 1⟩] : List MonthEntry).map (fun e => e.hours)).sum
    ∧ projectedAutomatable [⟨1, 2, 1⟩, ⟨2, 2, 1⟩, ⟨3, 2, 1⟩, ⟨4, 2, 1⟩, ⟨5, 2, 1⟩,
        ⟨6, 2, 1⟩, ⟨7, 2, 1⟩, ⟨8, 2, 1⟩, ⟨9, 2, 1⟩, ⟨10, 2, 1⟩, ⟨11, 2, 1⟩,
        ⟨12, 2, 1⟩]
      = (([⟨1, 2, 1⟩, ⟨2, 2, 1⟩, ⟨3, 2, 1⟩, ⟨4, 2, 1⟩, ⟨5, 2, 1⟩,
          ⟨6, 2, 1⟩, ⟨7, 2, 1⟩, ⟨8, 2, 1⟩, ⟨9, 2, 1⟩, ⟨10, 2, 1⟩, ⟨11, 2, 1⟩,
          ⟨12, 2, 1⟩] : List MonthEntry).map (fun e => e.auto)).sum :=
  projection_latest_month_identity _ (by decide) (by decide)

/-- C9: for every taxonomy, classifying null (`NaN`) or empty text is not an
error and deterministically returns that taxonomy's default category with its
automation potential: (General-Matters, 0.65) for the broad taxonomy,
(Unclassified, 0.0) for the tiered taxonomy, and
(General-Communication, 0.50) for the task-description taxonomy. -/
theorem empty_text_defaults :
    classify_matter_legalbench none = ("General-Matters", 0.65)
    ∧ classify_matter_legalbench (some "") = ("General-Matters", 0.65)
    ∧ classify_matter_oli none = ("Unclassified", 0)
    ∧ classify_matter_oli (some "") = ("Unclassified", 0)
    ∧ classify_task_description none = ("General-Communication", 0.50)
    ∧ classify_task_description (some "") = ("General-Communication", 0.50) :=
  ⟨rfl, rfl, rfl, rfl, rfl, rfl⟩

/-- C10: a text containing neither override trigger is never classified under
the tiered (OLI) taxonomy as the "0% AI Replaceable - Internal & Strategic"
category, even if it contains that category's other keywords: the override
category is skipped by the scoring loop, so such texts resolve to another
category or to the Unclassified default. -/
theorem oli_override_unreachable_without_trigger (s : String)
    (h : (containsSub "internal time".data (lowerStr s.data)
      || containsSub "vacation".data (lowerStr s.data)) = false) :
    (classify_matter_oli (some s)).1 ≠ "0% AI Replaceable - Internal & Strategic" := by
  have heq : classify_matter_oli (some s)
      = classify_core (RIMON_OLI_BENCHMARK.filter (fun c => c.name != oliOverride))
          ("Unclassified", 0) (lowerStr s.data) := by
    simp [classify_matter_oli, h]
  rw [heq]
  rcases classify_core_cases
      (RIMON_OLI_BENCHMARK.filter (fun c => c.name != oliOverride))
      ("Unclassified", 0) (lowerStr s.data) with hcase | ⟨c, hc, hcase⟩
  · rw [hcase]
    decide
  · rw [hcase]
    intro habs
    have hne : c.name ≠ oliOverride := by
      have h2 := (List.mem_filter.mp hc).2
      simpa using h2
    exact hne habs

/-- C10 (witness): "pto holiday training" contains several keywords of the
override category but neither trigger; it is not classified as the override
category — it falls to Unclassified with potential 0. -/
theorem oli_override_unreachable_witness :
    (containsSub "internal time".data (lowerStr "pto holiday training".data)
      || containsSub "vacation".data (lowerStr "pto holiday training".data)) = false
    ∧ (classify_matter_oli (some "pto holiday training")).1
        ≠ "0% AI Replaceable - Internal & Strategic"
    ∧ classify_matter_oli (some "pto holiday training") = ("Unclassified", 0) :=
  ⟨by decide,
   oli_override_unreachable_without_trigger "pto holiday training" (by decide),
   rfl⟩

end Rimon
